import Mathlib

/-!
Verification of the RPLIDAR A1 protocol driver shared by `2dplot.py` and
`3dplot.py`.  The driver-level functions (command framing, descriptor
validation, device-info/health payload decoding, and the 5-byte scan-frame
decoder) are embedded as pure Lean functions; the fixed-point angle and
distance values (Python floats obtained by dividing small integers by 64.0
and 4.0, which is exact in binary floating point for these ranges) are
modelled with `ℚ`.
-/

namespace RPLidar

/-- Error taxonomy of the driver, using the names the spec gives to the
failure paths of the code: a descriptor or payload read that yields fewer
bytes than the fixed length (the Python code raises on a short descriptor
and returns `None` on a short info/health payload) is `ShortRead`; a
scan-start descriptor whose first two bytes are not the sync pair (the
Python code raises) is `UnexpectedSyncBytes`. -/
inductive ProtocolError where
  | ShortRead : ProtocolError
  | UnexpectedSyncBytes : ProtocolError
deriving Repr, DecidableEq

/-- `RPLidarA1.SYNC_BYTE`. -/
def SYNC_BYTE : Nat := 0xA5

/-- `RPLidarA1.SYNC_BYTE2`. -/
def SYNC_BYTE2 : Nat := 0x5A

/-- `RPLidarA1.GET_INFO`. -/
def GET_INFO : Nat := 0x50

/-- `RPLidarA1.GET_HEALTH`. -/
def GET_HEALTH : Nat := 0x52

/-- `RPLidarA1.STOP`. -/
def STOP : Nat := 0x25

/-- `RPLidarA1.RESET`. -/
def RESET : Nat := 0x40

/-- `RPLidarA1.SCAN`. -/
def SCAN : Nat := 0x20

/-- `RPLidarA1.DESCRIPTOR_LEN`. -/
def DESCRIPTOR_LEN : Nat := 7

/-- `RPLidarA1.INFO_LEN`. -/
def INFO_LEN : Nat := 20

/-- `RPLidarA1.HEALTH_LEN`. -/
def HEALTH_LEN : Nat := 3

/-- `RPLidarA1._send_command`: packs the sync byte and the command byte,
i.e. the two bytes `[0xA5, cmd]` written to the serial port. -/
def send_command (cmd : Nat) : List Nat := [SYNC_BYTE, cmd]

/-- The supported commands (the `EXPRESS_SCAN` constant of the protocol
table in `2dplot.py` is never sent by either program). -/
inductive Command where
  | GetInfo : Command
  | GetHealth : Command
  | Stop : Command
  | Reset : Command
  | Scan : Command
deriving Repr, DecidableEq

/-- The opcode constant each command maps to in class `RPLidarA1`. -/
def opcode : Command → Nat
  | Command.GetInfo => GET_INFO
  | Command.GetHealth => GET_HEALTH
  | Command.Stop => STOP
  | Command.Reset => RESET
  | Command.Scan => SCAN

/-- The request frame sent for a command: `_send_command(opcode)`. -/
def encode (c : Command) : List Nat := send_command (opcode c)

/-- `RPLidarA1._read_descriptor`: reads `DESCRIPTOR_LEN` bytes and raises
when fewer arrive.  The bytes actually available are the argument; a short
read is the `ShortRead` failure. -/
def read_descriptor (bytes : List Nat) : Except ProtocolError (List Nat) :=
  if bytes.length = DESCRIPTOR_LEN then Except.ok bytes
  else Except.error ProtocolError.ShortRead

/-- `RPLidarA1.start_scan`: reads the descriptor and raises (message
"Failed to start scan", which the spec calls `UnexpectedSyncBytes`) unless
byte 0 equals `SYNC_BYTE` and byte 1 equals `SYNC_BYTE2`.  An `ok` result
is the only way scanning begins. -/
def start_scan (descriptor : List Nat) : Except ProtocolError Unit :=
  match read_descriptor descriptor with
  | Except.error e => Except.error e
  | Except.ok d =>
      if d.getD 0 0 ≠ SYNC_BYTE ∨ d.getD 1 0 ≠ SYNC_BYTE2 then
        Except.error ProtocolError.UnexpectedSyncBytes
      else Except.ok ()

/-- One lowercase hexadecimal digit, as the Python `bytes.hex` method
renders it. -/
def hexDigit (n : Nat) : Char :=
  if n < 10 then Char.ofNat (48 + n) else Char.ofNat (87 + n)

/-- Two lowercase hex digits for one byte. -/
def byteToHex (b : Nat) : String :=
  String.mk [hexDigit (b / 16), hexDigit (b % 16)]

/-- The Python `bytes.hex()` rendering of a byte list. -/
def bytesToHex (bs : List Nat) : String :=
  String.join (bs.map byteToHex)

/-- Decoded `get_info` reply: the dict built by `RPLidarA1.get_info`. -/
structure DeviceInfo where
  model : Nat
  firmware : String
  hardware : Nat
  serial_number : String
deriving Repr, DecidableEq

/-- `RPLidarA1.get_info` payload decoding: unpacking with format `<BBBB16s`
into `model, firmware_minor, firmware_major, hardware, serial_number`, with
the firmware string built as major, then ".", then minor, and the serial
rendered by `.hex()`.  When fewer than `INFO_LEN` bytes are available the
Python code returns `None`; that failure is what the spec calls
`ShortRead`. -/
def get_info (data : List Nat) : Except ProtocolError DeviceInfo :=
  if data.length = INFO_LEN then
    Except.ok
      { model := data.getD 0 0
        firmware := Nat.repr (data.getD 2 0) ++ "." ++ Nat.repr (data.getD 1 0)
        hardware := data.getD 3 0
        serial_number := bytesToHex (data.drop 4) }
  else Except.error ProtocolError.ShortRead

/-- Decoded `get_health` reply: the dict built by `RPLidarA1.get_health`. -/
structure HealthStatus where
  status : Nat
  error_code : Nat
deriving Repr, DecidableEq

/-- `RPLidarA1.get_health` payload decoding: unpacking with format `<BH`,
a `u8` status then a little-endian `u16` error code.  When fewer than
`HEALTH_LEN` bytes are available the Python code returns `None`; that
failure is what the spec calls `ShortRead`. -/
def get_health (data : List Nat) : Except ProtocolError HealthStatus :=
  if data.length = HEALTH_LEN then
    Except.ok
      { status := data.getD 0 0
        error_code := data.getD 1 0 + data.getD 2 0 * 256 }
  else Except.error ProtocolError.ShortRead

/-- One yielded sample of `RPLidarA1.read_scan_data` in `2dplot.py`. -/
structure ScanSample where
  angle : ℚ
  distance : ℚ
  quality : Nat
  start_flag : Bool
deriving Repr, DecidableEq

/-- One yielded sample of `RPLidarA1.read_scan_data` in `3dplot.py` (no
`start_flag` field). -/
structure ScanSample3 where
  angle : ℚ
  distance : ℚ
  quality : Nat
deriving Repr, DecidableEq

namespace Plot2D

/-- The per-frame body of `RPLidarA1.read_scan_data` in `2dplot.py` on one
5-byte frame `data = [b0,b1,b2,b3,b4]`:
`quality = data[0] >> 2`, `start_flag = (data[0] & 0x01) == 1`,
`angle = (((data[2] << 8) | data[1]) >> 1) / 64.0`,
`distance = ((data[4] << 8) | data[3]) / 4.0`, yielded only when
`quality > 0 and distance > 0` (otherwise the frame is dropped without
error). -/
def read_scan_data (b0 b1 b2 b3 b4 : Nat) : Option ScanSample :=
  let quality := b0 >>> 2
  let start_flag := (b0 &&& 0x01) == 1
  let angle : ℚ := ((((b2 <<< 8) ||| b1) >>> 1 : Nat) : ℚ) / 64
  let distance : ℚ := (((b4 <<< 8) ||| b3 : Nat) : ℚ) / 4
  if quality > 0 ∧ distance > 0 then
    some { angle := angle, distance := distance, quality := quality,
           start_flag := start_flag }
  else none

end Plot2D

namespace Plot3D

/-- The per-frame body of `RPLidarA1.read_scan_data` in `3dplot.py`,
identical to the 2-D variant except that no start flag is computed or
yielded. -/
def read_scan_data (b0 b1 b2 b3 b4 : Nat) : Option ScanSample3 :=
  let quality := b0 >>> 2
  let angle : ℚ := ((((b2 <<< 8) ||| b1) >>> 1 : Nat) : ℚ) / 64
  let distance : ℚ := (((b4 <<< 8) ||| b3 : Nat) : ℚ) / 4
  if quality > 0 ∧ distance > 0 then
    some { angle := angle, distance := distance, quality := quality }
  else none

end Plot3D

/-- Bitwise or of two naturals below `2 ^ n` stays below `2 ^ n`. -/
theorem lor_lt_two_pow {x y n : Nat} (hx : x < 2 ^ n) (hy : y < 2 ^ n) :
    x ||| y < 2 ^ n :=
  Nat.bitwise_lt hx hy

/-- Claim C1: for every 5-byte scan frame `[b0,b1,b2,b3,b4]` from which a
sample is produced, the decoder computed `quality = b0 >> 2`,
`is_new_scan = (b0 & 0x01) == 1`,
`angle_degrees = (((b2 << 8) | b1) >> 1) / 64.0` and
`distance_mm = ((b4 << 8) | b3) / 4.0`. -/
theorem scan_frame_decode_formulas (b0 b1 b2 b3 b4 : Nat) (s : ScanSample)
    (h : Plot2D.read_scan_data b0 b1 b2 b3 b4 = some s) :
    s.quality = b0 >>> 2 ∧
    s.start_flag = ((b0 &&& 0x01) == 1) ∧
    s.angle = ((((b2 <<< 8) ||| b1) >>> 1 : Nat) : ℚ) / 64 ∧
    s.distance = (((b4 <<< 8) ||| b3 : Nat) : ℚ) / 4 := by
  simp only [Plot2D.read_scan_data] at h
  split at h
  · injection h with h
    subst h
    exact ⟨rfl, rfl, rfl, rfl⟩
  · exact absurd h (by simp)

/-- Claim C1, witness: the formulas instantiated on the concrete frame
`[0x05, 0x40, 0x20, 0xE8, 0x03]`. -/
theorem scan_frame_decode_formulas_witness :
    ∃ s : ScanSample, Plot2D.read_scan_data 5 64 32 232 3 = some s ∧
      s.quality = 5 >>> 2 ∧
      s.start_flag = ((5 &&& 0x01) == 1) ∧
      s.angle = ((((32 <<< 8) ||| 64) >>> 1 : Nat) : ℚ) / 64 ∧
      s.distance = (((3 <<< 8) ||| 232 : Nat) : ℚ) / 4 := by
  refine ⟨{ angle := 129/2, distance := 250, quality := 1, start_flag := true },
    by simp [Plot2D.read_scan_data]; norm_num, ?_⟩
  exact scan_frame_decode_formulas 5 64 32 232 3 _
    (by simp [Plot2D.read_scan_data]; norm_num)

/-- Claim C2: a 5-byte frame whose decoded quality is 0 or whose decoded
distance is 0 produces no sample; the decoder is a total function, so no
error is raised either. -/
theorem zero_quality_or_distance_dropped (b0 b1 b2 b3 b4 : Nat)
    (h : b0 >>> 2 = 0 ∨ (((b4 <<< 8) ||| b3 : Nat) : ℚ) / 4 = 0) :
    Plot2D.read_scan_data b0 b1 b2 b3 b4 = none := by
  simp only [Plot2D.read_scan_data]
  rcases h with h | h
  · simp [h]
  · simp [h]

/-- Claim C2, witness: the frame `[0x01, 0x00, 0x20, 0xE8, 0x03]` has
quality `1 >> 2 = 0` and produces no sample. -/
theorem zero_quality_or_distance_dropped_witness :
    Plot2D.read_scan_data 1 0 32 232 3 = none :=
  zero_quality_or_distance_dropped 1 0 32 232 3 (Or.inl (by decide))

/-- Claim C3, counterexample: on the frame `[0x05, 0x40, 0x20, 0xE8, 0x03]`
the sample produced does not have `angle_degrees = 32.25` (the claim
mis-evaluates `(0x20 << 8) | 0x40` as `0x1020`; it is `0x2040`). -/
theorem concrete_frame_angle_not_32_25 :
    (Plot2D.read_scan_data 5 64 32 232 3).map ScanSample.angle ≠
      some (129 / 4 : ℚ) := by
  have h : Plot2D.read_scan_data 5 64 32 232 3 =
      some { angle := 129/2, distance := 250, quality := 1, start_flag := true } := by
    simp [Plot2D.read_scan_data]; norm_num
  rw [h]
  simp
  norm_num

/-- Claim C3, amended: decoding `[0x05, 0x40, 0x20, 0xE8, 0x03]` yields
exactly one sample with quality 1, `angle_degrees = 64.5` (that is
`(0x2040 >> 1) / 64 = 4128 / 64`), `distance_mm = 250.0` and
`is_new_scan = true`. -/
theorem concrete_frame_decodes_angle_64_5 :
    Plot2D.read_scan_data 5 64 32 232 3 =
      some { angle := 129/2, distance := 250, quality := 1, start_flag := true } := by
  simp [Plot2D.read_scan_data]; norm_num

/-- Claim C4, counterexample: the byte frame `[0x04, 0xFF, 0xFF, 0x01, 0x00]`
passes the quality and distance filters and yields a sample whose angle is
`32767 / 64 = 511.984375` degrees, which is not below 360. -/
theorem sample_angle_can_reach_512 :
    (Plot2D.read_scan_data 4 255 255 1 0).map ScanSample.angle =
      some (32767 / 64 : ℚ) ∧ ¬ ((32767 : ℚ) / 64 < 360) := by
  constructor
  · have h : Plot2D.read_scan_data 4 255 255 1 0 =
        some { angle := 32767/64, distance := 1/4, quality := 1, start_flag := false } := by
      simp [Plot2D.read_scan_data]
    rw [h]; rfl
  · norm_num

/-- Claim C4, amended: for byte-valued inputs (`b1, b2 < 256`) every
produced sample satisfies `0 ≤ angle_degrees < 512` (the 15-bit raw angle
divided by 64, not `< 360` — the decoder performs no range reduction) and
`distance_mm ≥ 0`. -/
theorem sample_angle_lt_512 (b0 b1 b2 b3 b4 : Nat)
    (hb1 : b1 < 256) (hb2 : b2 < 256) (s : ScanSample)
    (h : Plot2D.read_scan_data b0 b1 b2 b3 b4 = some s) :
    0 ≤ s.angle ∧ s.angle < 512 ∧ 0 ≤ s.distance := by
  simp only [Plot2D.read_scan_data] at h
  split at h
  · injection h with h
    subst h
    refine ⟨by positivity, ?_, by positivity⟩
    have hlor : (b2 <<< 8) ||| b1 < 2 ^ 16 := by
      apply lor_lt_two_pow
      · rw [Nat.shiftLeft_eq]
        norm_num
        omega
      · omega
    have hraw : ((b2 <<< 8) ||| b1) >>> 1 < 32768 := by
      rw [Nat.shiftRight_eq_div_pow]
      omega
    rw [div_lt_iff₀ (by norm_num : (0:ℚ) < 64)]
    norm_num
    exact_mod_cast hraw
  · exact absurd h (by simp)

/-- Claim C4, witness: the bounds instantiated on the frame
`[0x05, 0x40, 0x20, 0xE8, 0x03]`. -/
theorem sample_angle_lt_512_witness :
    ∃ s : ScanSample, Plot2D.read_scan_data 5 64 32 232 3 = some s ∧
      0 ≤ s.angle ∧ s.angle < 512 ∧ 0 ≤ s.distance :=
  ⟨{ angle := 129/2, distance := 250, quality := 1, start_flag := true },
    by simp [Plot2D.read_scan_data]; norm_num,
    sample_angle_lt_512 5 64 32 232 3 (by decide) (by decide) _
      (by simp [Plot2D.read_scan_data]; norm_num)⟩

/-- Claim C5: a 7-byte Scan response descriptor whose first two bytes are
not `0xA5, 0x5A` makes `start_scan` fail with `UnexpectedSyncBytes`, and in
particular `start_scan` does not succeed, so scanning does not begin. -/
theorem start_scan_bad_sync_fails (d : List Nat) (hlen : d.length = 7)
    (hsync : d.getD 0 0 ≠ 0xA5 ∨ d.getD 1 0 ≠ 0x5A) :
    start_scan d = Except.error ProtocolError.UnexpectedSyncBytes ∧
    ∀ u : Unit, start_scan d ≠ Except.ok u := by
  have h1 : read_descriptor d = Except.ok d := by
    simp [read_descriptor, DESCRIPTOR_LEN, hlen]
  have h2 : start_scan d = Except.error ProtocolError.UnexpectedSyncBytes := by
    unfold start_scan
    rw [h1]
    exact if_pos hsync
  exact ⟨h2, fun u => by simp [h2]⟩

/-- Claim C5, witness: the all-zero descriptor is rejected with
`UnexpectedSyncBytes`. -/
theorem start_scan_bad_sync_fails_witness :
    start_scan [0, 0, 0, 0, 0, 0, 0] = Except.error ProtocolError.UnexpectedSyncBytes ∧
    ∀ u : Unit, start_scan [0, 0, 0, 0, 0, 0, 0] ≠ Except.ok u :=
  start_scan_bad_sync_fails [0, 0, 0, 0, 0, 0, 0] (by decide) (Or.inl (by decide))

/-- Claim C6: with fewer than 20 payload bytes the device-info decoder
fails with `ShortRead` (the Python code returns `None` to its caller), and
with fewer than 3 payload bytes the health decoder does the same. -/
theorem short_payload_decoders_fail (info_data health_data : List Nat)
    (hi : info_data.length < 20) (hh : health_data.length < 3) :
    get_info info_data = Except.error ProtocolError.ShortRead ∧
    get_health health_data = Except.error ProtocolError.ShortRead := by
  constructor
  · unfold get_info
    rw [if_neg (by rw [INFO_LEN]; omega)]
  · unfold get_health
    rw [if_neg (by rw [HEALTH_LEN]; omega)]

/-- Claim C6, witness: a 3-byte info payload and a 1-byte health payload
both fail with `ShortRead`. -/
theorem short_payload_decoders_fail_witness :
    get_info [18, 5, 1] = Except.error ProtocolError.ShortRead ∧
    get_health [0] = Except.error ProtocolError.ShortRead :=
  short_payload_decoders_fail [18, 5, 1] [0] (by decide) (by decide)

/-- Claim C7: on every frame with `quality > 0` and `distance_raw > 0` the
decoder (a function, hence deterministic) yields a sample, and multiplying
`angle_degrees` by 64 and `distance_mm` by 4 reproduces the raw fields
exactly. -/
theorem scan_decode_reversible (b0 b1 b2 b3 b4 : Nat)
    (hq : 0 < b0 >>> 2) (hd : 0 < (b4 <<< 8) ||| b3) :
    ∃ s : ScanSample, Plot2D.read_scan_data b0 b1 b2 b3 b4 = some s ∧
      s.angle * 64 = ((((b2 <<< 8) ||| b1) >>> 1 : Nat) : ℚ) ∧
      s.distance * 4 = (((b4 <<< 8) ||| b3 : Nat) : ℚ) := by
  have hdq : (0 : ℚ) < (((b4 <<< 8) ||| b3 : Nat) : ℚ) / 4 := by
    apply div_pos _ (by norm_num)
    exact_mod_cast hd
  refine ⟨{ angle := ((((b2 <<< 8) ||| b1) >>> 1 : Nat) : ℚ) / 64,
            distance := (((b4 <<< 8) ||| b3 : Nat) : ℚ) / 4,
            quality := b0 >>> 2,
            start_flag := (b0 &&& 0x01) == 1 }, ?_, ?_, ?_⟩
  · simp only [Plot2D.read_scan_data]
    rw [if_pos ⟨hq, hdq⟩]
  · exact div_mul_cancel₀ _ (by norm_num)
  · exact div_mul_cancel₀ _ (by norm_num)

/-- Claim C7, witness: reversibility instantiated on the frame
`[0x05, 0x40, 0x20, 0xE8, 0x03]`. -/
theorem scan_decode_reversible_witness :
    ∃ s : ScanSample, Plot2D.read_scan_data 5 64 32 232 3 = some s ∧
      s.angle * 64 = ((((32 <<< 8) ||| 64) >>> 1 : Nat) : ℚ) ∧
      s.distance * 4 = (((3 <<< 8) ||| 232 : Nat) : ℚ) :=
  scan_decode_reversible 5 64 32 232 3 (by decide) (by decide)

/-- Claim C8: the 20-byte GetInfo payload `[18, 5, 1, 0] ++ 16 zero bytes`
decodes to model 18, firmware string "1.5" (wire order minor-then-major,
not swapped), hardware 0, and a serial number of 32 hex zero characters. -/
theorem get_info_concrete_payload :
    get_info ([18, 5, 1, 0] ++ List.replicate 16 0) =
      Except.ok
        { model := 18, firmware := "1.5", hardware := 0,
          serial_number := "00000000000000000000000000000000" } := by
  simp [get_info, bytesToHex, byteToHex, hexDigit, INFO_LEN]
  exact ⟨by decide, by decide⟩

/-- Claim C9: the command encoder is a pure total function producing
exactly `[0xA5, opcode]`, with opcodes GetInfo 0x50, GetHealth 0x52,
Stop 0x25, Reset 0x40, Scan 0x20; in particular
`encode Scan = [0xA5, 0x20]` and `encode Stop = [0xA5, 0x25]`. -/
theorem encode_commands :
    (∀ c : Command, encode c = [0xA5, opcode c]) ∧
    opcode Command.GetInfo = 0x50 ∧ opcode Command.GetHealth = 0x52 ∧
    opcode Command.Stop = 0x25 ∧ opcode Command.Reset = 0x40 ∧
    opcode Command.Scan = 0x20 ∧
    encode Command.Scan = [0xA5, 0x20] ∧ encode Command.Stop = [0xA5, 0x25] :=
  ⟨fun _ => rfl, rfl, rfl, rfl, rfl, rfl, rfl, rfl⟩

/-- Claim C10: on every 5-byte frame the decoders of `2dplot.py` and
`3dplot.py` make the same keep/discard decision and agree on angle,
distance and quality (the 3-D variant merely omits the start flag). -/
theorem scan_decoders_agree (b0 b1 b2 b3 b4 : Nat) :
    (Plot2D.read_scan_data b0 b1 b2 b3 b4).map
        (fun s => (s.angle, s.distance, s.quality)) =
      (Plot3D.read_scan_data b0 b1 b2 b3 b4).map
        (fun s => (s.angle, s.distance, s.quality)) := by
  simp only [Plot2D.read_scan_data, Plot3D.read_scan_data]
  split
  · rfl
  · rfl

end RPLidar
